import Mathlib

set_option autoImplicit false

namespace TauriNSSplitView

/-!
Shallow embedding of the tauri-nssplitview plugin core.

The embedding covers:
* `BasicSplitView::set_event_handler` (src/src/splitview.rs, lines 82-123):
  the delegate interceptor.  Delegate identities are abstracted as `Nat`;
  the window state visible to the function is the window's active delegate
  plus whether a window is resolvable at all.
* the registry (`ManagerExt::get_split_view`, `ManagerExt::remove_split_view`,
  `WebviewWindowExt::to_split_view` in src/src/lib.rs): the `HashMap` keyed
  by label is embedded as an association list with unique keys.
* the geometry queries of `BasicSplitView` (`pane_count`, `pane_at_index`,
  `is_pane_collapsed`, `get_divider_position`, `set_divider_thickness`,
  `divider_thickness`): the NSSplitView subview array is embedded as a list
  of panes carrying a frame (rationals stand in for the CGFloat coordinates;
  no claim here depends on float rounding) and a collapsed flag.
* `SplitViewBuilder::build` URL derivation (src/src/builder.rs, lines 177-186).
-/

/-- State of a `BasicSplitView` instance together with the part of its owning
window that `set_event_handler` reads and writes.

* `originalDelegate` embeds the `OnceCell` field `original_delegate`;
* `eventHandler` embeds the `RefCell<Option<...>>` field `event_handler`;
* `hasWindow` is whether `self.window()` resolves (the function is a no-op
  otherwise);
* `windowDelegate` is the window's active delegate (`window.delegate()` /
  `setDelegate:`). -/
structure BasicSplitViewState where
  originalDelegate : Option Nat
  eventHandler : Option Nat
  hasWindow : Bool
  windowDelegate : Option Nat
  deriving DecidableEq, Repr

/-- Embedding of `BasicSplitView::set_event_handler` (src/src/splitview.rs,
lines 82-123).  With `some h`: when both the stored handler and the stored
original delegate are absent, the window's current delegate (when present) is
captured into `original_delegate`; then the handler is stored and installed
as the window delegate.  With `none`: early return when no original delegate
was ever captured; otherwise the stored handler is cleared and the captured
original delegate is reinstalled.  No-op when the window does not resolve. -/
def setEventHandler (s : BasicSplitViewState) (handler : Option Nat) :
    BasicSplitViewState :=
  if s.hasWindow then
    match handler with
    | some h =>
      let s1 :=
        if s.eventHandler.isNone && s.originalDelegate.isNone then
          match s.windowDelegate with
          | some d => { s with originalDelegate := some d }
          | none => s
        else s
      { s1 with eventHandler := some h, windowDelegate := some h }
    | none =>
      if s.originalDelegate.isNone then s
      else { s with eventHandler := none, windowDelegate := s.originalDelegate }
  else s

/-- C1: starting from a fresh instance whose owning window resolves and has an
active delegate `d0`, the call sequence `set_event_handler(Some(h1));
set_event_handler(Some(h2)); set_event_handler(None)` leaves `d0` installed as
the window's delegate, and the second install does not change the stored
`original_delegate`. -/
theorem install_install_uninstall_restores_original
    (s0 : BasicSplitViewState) (d0 h1 h2 : Nat)
    (hw : s0.hasWindow = true)
    (hwd : s0.windowDelegate = some d0)
    (heh : s0.eventHandler = none)
    (hod : s0.originalDelegate = none) :
    (setEventHandler (setEventHandler (setEventHandler s0 (some h1)) (some h2))
        none).windowDelegate = some d0
    ∧ (setEventHandler (setEventHandler s0 (some h1)) (some h2)).originalDelegate
        = (setEventHandler s0 (some h1)).originalDelegate := by
  cases s0
  simp_all [setEventHandler]

/-- Witness for C1 at a concrete fresh state with window delegate 7. -/
theorem install_install_uninstall_restores_original_witness :
    (setEventHandler (setEventHandler (setEventHandler
        (⟨none, none, true, some 7⟩ : BasicSplitViewState) (some 1)) (some 2))
        none).windowDelegate = some 7
    ∧ (setEventHandler (setEventHandler
        (⟨none, none, true, some 7⟩ : BasicSplitViewState) (some 1))
        (some 2)).originalDelegate
      = (setEventHandler (⟨none, none, true, some 7⟩ : BasicSplitViewState)
        (some 1)).originalDelegate :=
  install_install_uninstall_restores_original
    (⟨none, none, true, some 7⟩ : BasicSplitViewState) 7 1 2 rfl rfl rfl rfl

/-- C2: from a state where a custom handler is installed and an original
delegate was captured, `set_event_handler(None)` clears the stored handler,
reinstalls the captured original delegate as the window's delegate, and keeps
the captured original delegate stored (the Unmanaged state). -/
theorem uninstall_restores_original_delegate
    (s : BasicSplitViewState) (h orig : Nat)
    (hw : s.hasWindow = true)
    (heh : s.eventHandler = some h)
    (hod : s.originalDelegate = some orig) :
    (setEventHandler s none).eventHandler = none
    ∧ (setEventHandler s none).windowDelegate = some orig
    ∧ (setEventHandler s none).originalDelegate = some orig := by
  cases s
  simp_all [setEventHandler]

/-- Witness for C2 at a concrete managed state. -/
theorem uninstall_restores_original_delegate_witness :
    (setEventHandler (⟨some 3, some 5, true, some 5⟩ : BasicSplitViewState)
        none).eventHandler = none
    ∧ (setEventHandler (⟨some 3, some 5, true, some 5⟩ : BasicSplitViewState)
        none).windowDelegate = some 3
    ∧ (setEventHandler (⟨some 3, some 5, true, some 5⟩ : BasicSplitViewState)
        none).originalDelegate = some 3 :=
  uninstall_restores_original_delegate
    (⟨some 3, some 5, true, some 5⟩ : BasicSplitViewState) 5 3 rfl rfl rfl

/-- C7: a `set_event_handler` call changes the stored `original_delegate` only
when both the stored original delegate and the stored handler were absent
beforehand, and once `original_delegate` holds a value no call ever changes
it. -/
theorem original_delegate_write_once
    (s : BasicSplitViewState) (handler : Option Nat) :
    ((setEventHandler s handler).originalDelegate ≠ s.originalDelegate →
      s.originalDelegate = none ∧ s.eventHandler = none)
    ∧ (∀ d : Nat, s.originalDelegate = some d →
      (setEventHandler s handler).originalDelegate = some d) := by
  rcases s with ⟨od, eh, hw, wd⟩
  cases hw <;> cases handler <;> cases od <;> cases eh <;> cases wd <;>
    simp [setEventHandler]

/-- Witness for C7: a state holding original delegate 4 keeps it across an
install of handler 9. -/
theorem original_delegate_write_once_witness :
    (setEventHandler (⟨some 4, none, true, some 4⟩ : BasicSplitViewState)
        (some 9)).originalDelegate = some 4 :=
  (original_delegate_write_once
    (⟨some 4, none, true, some 4⟩ : BasicSplitViewState) (some 9)).2 4 rfl

/-- Restoring twice equals restoring once, from any state. -/
theorem setEventHandler_none_idem (s : BasicSplitViewState) :
    setEventHandler (setEventHandler s none) none = setEventHandler s none := by
  rcases s with ⟨od, eh, hw, wd⟩
  cases hw <;> cases od <;> simp [setEventHandler]

/-- C8: after an install of `h`, two consecutive `set_event_handler(None)`
calls leave the same state as one; and from a state where no original
delegate was ever captured, `set_event_handler(None)` is a no-op. -/
theorem uninstall_idempotent (s0 : BasicSplitViewState) (h : Nat) :
    (setEventHandler (setEventHandler (setEventHandler s0 (some h)) none) none
      = setEventHandler (setEventHandler s0 (some h)) none)
    ∧ (s0.originalDelegate = none → setEventHandler s0 none = s0) := by
  constructor
  · exact setEventHandler_none_idem (setEventHandler s0 (some h))
  · intro hod
    rcases s0 with ⟨od, eh, hw, wd⟩
    cases hw <;> simp_all [setEventHandler]

/-- Witness for C8 at a concrete fresh state with no window delegate. -/
theorem uninstall_idempotent_witness :
    (setEventHandler (setEventHandler (setEventHandler
        (⟨none, none, true, none⟩ : BasicSplitViewState) (some 6)) none) none
      = setEventHandler (setEventHandler
        (⟨none, none, true, none⟩ : BasicSplitViewState) (some 6)) none)
    ∧ setEventHandler (⟨none, none, true, none⟩ : BasicSplitViewState) none
      = (⟨none, none, true, none⟩ : BasicSplitViewState) :=
  ⟨(uninstall_idempotent (⟨none, none, true, none⟩ : BasicSplitViewState) 6).1,
    (uninstall_idempotent (⟨none, none, true, none⟩ : BasicSplitViewState) 6).2
      rfl⟩

/-- Embedding of the `Error` enum of src/src/lib.rs. -/
inductive RegistryError where
  | SplitViewNotFound
  deriving DecidableEq, Repr

/-- The registry `Store`: the `HashMap<String, SplitViewHandle>` is embedded
as an association list with unique keys (handles abstracted as `Nat`). -/
abbrev Store := List (String × Nat)

/-- Embedding of `ManagerExt::get_split_view` (src/src/lib.rs, lines 151-159):
look the label up, `SplitViewNotFound` when absent. -/
def get_split_view (st : Store) (l : String) : Except RegistryError Nat :=
  match st.find? (fun p => p.1 == l) with
  | some p => Except.ok p.2
  | none => Except.error RegistryError.SplitViewNotFound

/-- Embedding of `ManagerExt::remove_split_view` (src/src/lib.rs, lines
161-168): `HashMap::remove` returns the mapped handle (when any) and deletes
the entry. -/
def remove_split_view (st : Store) (l : String) : Option Nat × Store :=
  ((st.find? (fun p => p.1 == l)).map Prod.snd,
    st.eraseP (fun p => p.1 == l))

/-- Embedding of the registration step of `WebviewWindowExt::to_split_view`
(src/src/lib.rs, lines 176-192): `HashMap::insert` overwrites any existing
entry for the label. -/
def to_split_view (st : Store) (l : String) (h : Nat) : Store :=
  (l, h) :: st.eraseP (fun p => p.1 == l)

/-- When the store keys are unique, no entry for `l` survives erasing the
entry for `l`. -/
theorem keys_nodup_eraseP (st : Store) (l : String)
    (hnd : (st.map Prod.fst).Nodup) :
    ∀ q ∈ st.eraseP (fun p => p.1 == l), (q.1 == l) = false := by
  induction st with
  | nil => intro q hq; simp at hq
  | cons a rest ih =>
    simp only [List.map_cons, List.nodup_cons] at hnd
    intro q hq
    by_cases hk : (a.1 == l) = true
    · simp only [List.eraseP_cons, hk, cond_true] at hq
      have hmem : q.1 ∈ rest.map Prod.fst := List.mem_map_of_mem _ hq
      have hal : a.1 = l := by simpa using hk
      by_contra hql
      have hql2 : q.1 = l := by simpa using hql
      exact hnd.1 (hal ▸ hql2 ▸ hmem)
    · rw [Bool.not_eq_true] at hk
      simp only [List.eraseP_cons, hk, cond_false] at hq
      rcases List.mem_cons.mp hq with hqa | hqrest
      · subst hqa; exact hk
      · exact ih hnd.2 q hqrest

/-- C5: on a store with unique keys, removing an unregistered label returns
absent and leaves the store unchanged; removing a registered label returns
the mapped handle and a subsequent lookup of that label fails with
`SplitViewNotFound`. -/
theorem remove_split_view_spec (st : Store) (l : String)
    (hnd : (st.map Prod.fst).Nodup) :
    (get_split_view st l = Except.error RegistryError.SplitViewNotFound →
      (remove_split_view st l).1 = none ∧ (remove_split_view st l).2 = st)
    ∧ (∀ h : Nat, get_split_view st l = Except.ok h →
      (remove_split_view st l).1 = some h
      ∧ get_split_view (remove_split_view st l).2 l
          = Except.error RegistryError.SplitViewNotFound) := by
  constructor
  · intro herr
    have hfind : st.find? (fun p => p.1 == l) = none := by
      unfold get_split_view at herr
      cases hf : st.find? (fun p => p.1 == l) with
      | none => rfl
      | some p => rw [hf] at herr; cases herr
    refine ⟨by simp [remove_split_view, hfind], ?_⟩
    simp only [remove_split_view]
    exact List.eraseP_of_forall_not (by simpa using List.find?_eq_none.mp hfind)
  · intro h hok
    have hfind : ∃ p, st.find? (fun p => p.1 == l) = some p ∧ p.2 = h := by
      unfold get_split_view at hok
      cases hf : st.find? (fun p => p.1 == l) with
      | none => rw [hf] at hok; cases hok
      | some p =>
        rw [hf] at hok
        exact ⟨p, rfl, by injection hok⟩
    rcases hfind with ⟨p, hf, hp2⟩
    refine ⟨by simp [remove_split_view, hf, hp2], ?_⟩
    have hnone : (st.eraseP (fun p => p.1 == l)).find? (fun p => p.1 == l)
        = none :=
      List.find?_eq_none.mpr (fun q hq => by
        simpa using keys_nodup_eraseP st l hnd q hq)
    simp [get_split_view, remove_split_view, hnone]

/-- Witness for C5 on the one-entry store mapping label a to handle 9: label b
is unregistered, label a is registered. -/
theorem remove_split_view_spec_witness :
    ((remove_split_view [("a", 9)] "b").1 = none
      ∧ (remove_split_view [("a", 9)] "b").2 = [("a", 9)])
    ∧ ((remove_split_view [("a", 9)] "a").1 = some 9
      ∧ get_split_view (remove_split_view [("a", 9)] "a").2 "a"
          = Except.error RegistryError.SplitViewNotFound) :=
  ⟨(remove_split_view_spec [("a", 9)] "b" (by simp)).1 rfl,
    (remove_split_view_spec [("a", 9)] "a" (by simp)).2 9 rfl⟩

/-- C6: registering `h1` and then `h2` under the same label makes lookup
return `h2`, and registration preserves uniqueness of the labels in the
store (at most one handle per label). -/
theorem register_overwrites (st : Store) (l : String) (h1 h2 : Nat) :
    get_split_view (to_split_view (to_split_view st l h1) l h2) l
      = Except.ok h2
    ∧ (∀ h : Nat, (st.map Prod.fst).Nodup →
        ((to_split_view st l h).map Prod.fst).Nodup) := by
  constructor
  · simp [get_split_view, to_split_view]
  · intro h hnd
    simp only [to_split_view, List.map_cons, List.nodup_cons]
    constructor
    · intro hmem
      rcases List.mem_map.mp hmem with ⟨q, hq, hq1⟩
      have := keys_nodup_eraseP st l hnd q hq
      simp [hq1] at this
    · exact hnd.sublist (List.Sublist.map Prod.fst (List.eraseP_sublist st))

/-- Witness for C6 on a concrete store. -/
theorem register_overwrites_witness :
    get_split_view (to_split_view (to_split_view [("a", 9)] "b" 1) "b" 2) "b"
      = Except.ok 2
    ∧ ((to_split_view [("a", 9)] "b" 7).map Prod.fst).Nodup :=
  ⟨(register_overwrites [("a", 9)] "b" 1 2).1,
    (register_overwrites [("a", 9)] "b" 1 2).2 7 (by simp)⟩

/-- One subview of the NSSplitView: its frame (origin and size, rationals
standing in for CGFloat) and whether the split view reports it collapsed. -/
structure Pane where
  x : Rat
  y : Rat
  w : Rat
  h : Rat
  collapsed : Bool
  deriving DecidableEq, Repr

/-- Geometry state of a `BasicSplitView`: the subview array of the wrapped
NSSplitView, its orientation flag and its (read-only) divider thickness. -/
structure SplitViewGeom where
  panes : List Pane
  vertical : Bool
  dividerThicknessVal : Rat
  deriving DecidableEq, Repr

/-- Embedding of `BasicSplitView::pane_count` (src/src/splitview.rs, lines
137-143): the count of the subview array. -/
def pane_count (s : SplitViewGeom) : Nat := s.panes.length

/-- Embedding of `BasicSplitView::pane_at_index` (src/src/splitview.rs, lines
189-201): bounds-checked access into the subview array. -/
def pane_at_index (s : SplitViewGeom) (index : Nat) : Option Pane :=
  if index < s.panes.length then s.panes.get? index else none

/-- Embedding of `BasicSplitView::is_pane_collapsed` (src/src/splitview.rs,
lines 209-221): query the collapsed state of the pane at `index`, false when
`pane_at_index` returns absent. -/
def is_pane_collapsed (s : SplitViewGeom) (index : Nat) : Bool :=
  match pane_at_index s index with
  | some p => p.collapsed
  | none => false

/-- The modulus of the 64-bit `usize` arithmetic of the source. -/
def USIZE : Nat := 2 ^ 64

/-- Embedding of `BasicSplitView::get_divider_position` (src/src/splitview.rs,
lines 155-176).  The guard of the source is `divider_index >= count - 1` on
`usize`; the subtraction is embedded with the wrap-around of release-profile
Rust, `(count + (USIZE - 1)) % USIZE` (in a debug profile the same
subtraction panics when `count = 0`).  Past the guard the subview at
`divider_index` is fetched with `objectAtIndex:`, which raises
`NSRangeException` when the index is out of bounds; the raise is embedded as
`Except.error`.  In bounds, the position is the trailing edge of the pane's
frame along the split axis. -/
def get_divider_position (s : SplitViewGeom) (divider_index : Nat) :
    Except String Rat :=
  if (s.panes.length + (USIZE - 1)) % USIZE ≤ divider_index then
    Except.ok 0
  else
    match s.panes.get? divider_index with
    | some p => Except.ok (if s.vertical then p.x + p.w else p.y + p.h)
    | none => Except.error "NSRangeException"

/-- Embedding of `BasicSplitView::set_divider_thickness` (src/src/splitview.rs,
lines 178-183): the source body discards the argument. -/
def set_divider_thickness (s : SplitViewGeom) (_thickness : Rat) :
    SplitViewGeom := s

/-- Embedding of `BasicSplitView::divider_thickness` (src/src/splitview.rs,
lines 185-187): reads the dividerThickness property. -/
def divider_thickness (s : SplitViewGeom) : Rat := s.dividerThicknessVal

/-- C3: on a split view with zero panes, `get_divider_position(0)` does not
return 0.0 — the `count - 1` in the guard wraps (or panics in a debug build)
and the out-of-bounds `objectAtIndex:` raises `NSRangeException`. -/
theorem get_divider_position_zero_panes_fails :
    pane_count (⟨[], true, 0⟩ : SplitViewGeom) = 0
    ∧ get_divider_position (⟨[], true, 0⟩ : SplitViewGeom) 0
      = Except.error "NSRangeException" := by
  exact ⟨rfl, rfl⟩

/-- For a nonempty split view, `get_divider_position` does return 0.0 on every
out-of-range divider index (the boundary policy works when no wrap occurs). -/
theorem get_divider_position_boundary (s : SplitViewGeom) (i : Nat)
    (hpos : 1 ≤ pane_count s) (hi : pane_count s - 1 ≤ i)
    (hcount : pane_count s < USIZE) :
    get_divider_position s i = Except.ok 0 := by
  have hmod : (s.panes.length + (USIZE - 1)) % USIZE = s.panes.length - 1 := by
    unfold pane_count at hpos hcount
    have h1 : s.panes.length + (USIZE - 1)
        = (s.panes.length - 1) + USIZE := by omega
    rw [h1, Nat.add_mod_right]
    exact Nat.mod_eq_of_lt (by omega)
  unfold get_divider_position
  rw [hmod]
  simp only [pane_count] at hi
  rw [if_pos hi]

/-- Witness for the boundary-policy theorem on a one-pane split view. -/
theorem get_divider_position_boundary_witness :
    (1 ≤ pane_count (⟨[⟨0, 0, 1, 1, false⟩], true, 0⟩ : SplitViewGeom)
      ∧ pane_count (⟨[⟨0, 0, 1, 1, false⟩], true, 0⟩ : SplitViewGeom) - 1 ≤ 0
      ∧ pane_count (⟨[⟨0, 0, 1, 1, false⟩], true, 0⟩ : SplitViewGeom) < USIZE)
    ∧ get_divider_position (⟨[⟨0, 0, 1, 1, false⟩], true, 0⟩ : SplitViewGeom) 0
      = Except.ok 0 :=
  ⟨⟨by decide, by decide, by decide⟩,
    get_divider_position_boundary
      (⟨[⟨0, 0, 1, 1, false⟩], true, 0⟩ : SplitViewGeom) 0
      (by decide) (by decide) (by decide)⟩

/-- C9: `set_divider_thickness` changes nothing: the state after the call is
the state before it, and `divider_thickness` reads the same value. -/
theorem set_divider_thickness_noop (s : SplitViewGeom) (t : Rat) :
    set_divider_thickness s t = s
    ∧ divider_thickness (set_divider_thickness s t) = divider_thickness s :=
  ⟨rfl, rfl⟩

/-- C10: `is_pane_collapsed` on an index at or past the pane count returns
false rather than failing. -/
theorem is_pane_collapsed_out_of_range (s : SplitViewGeom) (index : Nat)
    (hge : pane_count s ≤ index) :
    is_pane_collapsed s index = false := by
  unfold is_pane_collapsed pane_at_index
  unfold pane_count at hge
  rw [if_neg (by omega)]

/-- Witness for C10: a one-pane split view queried at index 3. -/
theorem is_pane_collapsed_out_of_range_witness :
    pane_count (⟨[⟨0, 0, 1, 1, true⟩], true, 0⟩ : SplitViewGeom) ≤ 3
    ∧ is_pane_collapsed (⟨[⟨0, 0, 1, 1, true⟩], true, 0⟩ : SplitViewGeom) 3
      = false :=
  ⟨by decide,
    is_pane_collapsed_out_of_range
      (⟨[⟨0, 0, 1, 1, true⟩], true, 0⟩ : SplitViewGeom) 3 (by decide)⟩

/-- Embedding of the `PaneConfig` enum of src/src/builder.rs (URLs abstracted
as strings). -/
inductive PaneConfig where
  | Webview (url : String)
  | Native (identifier : String)
  deriving DecidableEq, Repr

/-- Embedding of the URL derivation in `SplitViewBuilder::build`
(src/src/builder.rs, lines 177-186): the FIRST pane's URL when that pane is a
Webview pane, otherwise the default. -/
def buildInitialUrl (panes : List PaneConfig) : String :=
  (panes.head?.bind (fun pane =>
    match pane with
    | PaneConfig.Webview url => some url
    | _ => none)).getD "index.html"

/-- Modelled from the spec wording of C4 for refinement comparison: the URL of
the first Webview-type pane anywhere in the list when one is present, else
the default. -/
def specInitialUrl (panes : List PaneConfig) : String :=
  ((panes.find? (fun pane =>
      match pane with
      | PaneConfig.Webview _ => true
      | _ => false)).bind (fun pane =>
    match pane with
    | PaneConfig.Webview url => some url
    | _ => none)).getD "index.html"

/-- Counterexample for C4: with a Native pane ahead of a Webview pane, build
uses the default URL, not the Webview pane's URL that the claim demands. -/
theorem build_url_skips_later_webview :
    buildInitialUrl
        [PaneConfig.Native "sidebar", PaneConfig.Webview "left.html"]
      = "index.html"
    ∧ specInitialUrl
        [PaneConfig.Native "sidebar", PaneConfig.Webview "left.html"]
      = "left.html"
    ∧ buildInitialUrl
        [PaneConfig.Native "sidebar", PaneConfig.Webview "left.html"]
      ≠ specInitialUrl
        [PaneConfig.Native "sidebar", PaneConfig.Webview "left.html"] := by
  refine ⟨rfl, rfl, ?_⟩
  decide

/-- C4 as amended: `build()` takes the URL from the head pane exactly when
that head pane is a Webview pane; an empty pane list or a Native head pane
yields the default `index.html`, whatever panes follow. -/
theorem build_url_from_first_pane (u ident : String) (rest : List PaneConfig) :
    buildInitialUrl [] = "index.html"
    ∧ buildInitialUrl (PaneConfig.Webview u :: rest) = u
    ∧ buildInitialUrl (PaneConfig.Native ident :: rest) = "index.html" :=
  ⟨rfl, rfl, rfl⟩

end TauriNSSplitView
